import Mathlib

/-!
Verification of the FaunaDB Python client (`faunadb/client.py`) against its
natural-language specification.  The definitions below are a shallow embedding
of the client: Python values flowing through the client are modelled by a
generic JSON value type, Python exceptions by an explicit error type, and each
method of `Client` by a Lean function translated line by line from the source.
-/

/-- Generic JSON-like value: the shape of parsed response bodies, request
data and query-parameter values handled by the client.  `null` models Python
`None`. -/
inductive Json where
  | null : Json
  | bool (b : Bool) : Json
  | num (n : Int) : Json
  | str (s : String) : Json
  | arr (elems : List Json) : Json
  | obj (fields : List (String × Json)) : Json

/-- Errors the client can signal.  The first eight constructors are the
classes imported from `faunadb.errors` (the library's taxonomy, each carrying
the parsed response body exactly as passed at its raise site in `client.py`);
`faunaError` is the base `FaunaError` raised with a message by
`_parse_secret`; `keyError` and `typeError` model the Python built-in
exceptions that subscripting a parsed body can raise. -/
inductive PyError where
  | badRequest (body : Json)
  | unauthorized (body : Json)
  | permissionDenied (body : Json)
  | notFound (body : Json)
  | methodNotAllowed (body : Json)
  | internalError (body : Json)
  | unavailableError (body : Json)
  | faunaHTTPError (body : Json)
  | faunaError (msg : String)
  | keyError (key : String)
  | typeError (msg : String)

/-- Whether an error belongs to the library's error taxonomy (a class from
`faunadb.errors`, per the import list of `client.py`) as opposed to a Python
built-in exception such as `KeyError`. -/
def isTaxonomyError : PyError → Bool
  | .keyError _ => false
  | .typeError _ => false
  | _ => true

/-- First-match association lookup, the behaviour of Python dict subscripting
on our list-of-pairs model of dicts (keys are unique in a Python dict, so
first match is the only match). -/
def lookupAssoc {α : Type} : List (String × α) → String → Option α
  | [], _ => none
  | (k, v) :: rest, key => if k = key then some v else lookupAssoc rest key

/-- Python `d[key]` on a parsed JSON value: a missing key raises `KeyError`,
subscripting a non-dict by a string raises `TypeError`. -/
def getItem (j : Json) (key : String) : Except PyError Json :=
  match j with
  | .obj fields =>
    match lookupAssoc fields key with
    | some v => Except.ok v
    | none => Except.error (PyError.keyError key)
  | _ => Except.error (PyError.typeError "value is not subscriptable by a string key")

namespace codes

/-! Status-code constants from `requests.codes`, with their standard values. -/

def bad_request : Nat := 400
def unauthorized : Nat := 401
def forbidden : Nat := 403
def not_found : Nat := 404
def method_not_allowed : Nat := 405
def internal_server_error : Nat := 500
def unavailable : Nat := 503

end codes

/-- `Client._handle_response`: looks for error codes in the response; on a
2xx status returns `response_dict["resource"]`, otherwise raises the error
matching the status code, the generic `FaunaHTTPError` as the default arm. -/
def handle_response (status_code : Nat) (response_dict : Json) : Except PyError Json :=
  if 200 ≤ status_code ∧ status_code ≤ 299 then
    getItem response_dict "resource"
  else if status_code = codes.bad_request then
    Except.error (PyError.badRequest response_dict)
  else if status_code = codes.unauthorized then
    Except.error (PyError.unauthorized response_dict)
  else if status_code = codes.forbidden then
    Except.error (PyError.permissionDenied response_dict)
  else if status_code = codes.not_found then
    Except.error (PyError.notFound response_dict)
  else if status_code = codes.method_not_allowed then
    Except.error (PyError.methodNotAllowed response_dict)
  else if status_code = codes.internal_server_error then
    Except.error (PyError.internalError response_dict)
  else if status_code = codes.unavailable then
    Except.error (PyError.unavailableError response_dict)
  else
    Except.error (PyError.faunaHTTPError response_dict)

/-- A secret as accepted by the constructor: either a string or a tuple of
strings (Python distinguishes the two by `isinstance(secret, tuple)`). -/
inductive Secret where
  | str (s : String) : Secret
  | tup (xs : List String) : Secret

/-- Helper for `split1`: find the first `':'` in a character list, returning
the characters before it and after it, or `none` when there is no colon. -/
def breakColon : List Char → Option (List Char × List Char)
  | [] => none
  | c :: rest =>
    if c = ':' then some ([], rest)
    else
      match breakColon rest with
      | none => none
      | some (before, after) => some (c :: before, after)

/-- Python `s.split(":", 1)`: split on the first colon only, yielding a list
of one element (no colon present) or two elements. -/
def split1 (s : String) : List String :=
  match breakColon s.toList with
  | none => [s]
  | some (before, after) => [String.mk before, String.mk after]

/-- `Client._parse_secret`: a tuple must have exactly two entries and is
returned as the credential pair; a string is split on the first colon, with
an empty password appended when no colon is present.  (The tuple arm's
pattern match is the source's length-2 check: a list fails the `[u, p]`
pattern exactly when its length is not two.) -/
def parse_secret : Secret → Except PyError (String × String)
  | .tup xs =>
    match xs with
    | [u, p] => Except.ok (u, p)
    | _ => Except.error (PyError.faunaError "Secret tuple must have exactly two entries")
  | .str s =>
    match split1 s with
    | [u] => Except.ok (u, "")
    | [u, p] => Except.ok (u, p)
    | _ => Except.error (PyError.typeError "unreachable: split1 yields one or two parts")

/-- A structured reference (`faunadb.objects.Ref`), used by the client only
through its `value` attribute: a path-like string. -/
structure Ref where
  value : String

/-- The `path` argument of `_execute`: a plain string or a `Ref`. -/
inductive PathArg where
  | str (s : String) : PathArg
  | ref (r : Ref) : PathArg

/-- Lines 156–157 of `client.py`: `if isinstance(path, Ref): path = path.value`. -/
def pathString : PathArg → String
  | .str s => s
  | .ref r => r.value

/-- Whether a value is Python `None` (the `v is not None` test). -/
def Json.isNull : Json → Bool
  | .null => true
  | _ => false

/-- Python truthiness of a JSON-like value (the `if data:` test). -/
def Json.truthy : Json → Bool
  | .null => false
  | .bool b => b
  | .num n => decide (n ≠ 0)
  | .str s => decide (s ≠ "")
  | .arr elems => !elems.isEmpty
  | .obj fields => !fields.isEmpty

/-- Rendering of a value by Python `"%s" % v`, used only to build log text.
Scalars render as Python does; container rendering is abbreviated (no claim
depends on log-line text). -/
def Json.pyStr : Json → String
  | .null => "None"
  | .bool true => "True"
  | .bool false => "False"
  | .num n => toString n
  | .str s => s
  | .arr _ => "list"
  | .obj _ => "dict"

/-- A query-parameter dict as passed to `_execute`: `None` or a dict of
string keys to values (possibly `None`). -/
abbrev QDict := Option (List (String × Json))

/-- Lines 158–159 of `client.py`: when the query dict is not `None`, drop
every key whose value is `None`; a `None` query is left untouched. -/
def normalize_query : QDict → QDict
  | none => none
  | some q => some (q.filter (fun kv => !kv.2.isNull))

/-- The HTTP request handed to the session: method, full URL, query
parameters and serialized body (`requests.Request(action, url, params=query,
data=to_json(data))`). -/
structure Request where
  method : String
  url : String
  params : QDict
  body : String

/-- An HTTP response as seen by the client: status code, raw body text and
headers. -/
structure HttpResponse where
  status_code : Nat
  text : String
  headers : List (String × String)

/-- The request that `_execute_without_logging` constructs (line 197–198):
`url = self.base_url + "/" + path`, the already-normalized query as params,
and the body serialized by the external `_json.to_json` codec, abstracted
here as the function `tj`. -/
def build_request (tj : Json → String) (base_url action path : String)
    (data : Json) (query : QDict) : Request :=
  { method := action, url := base_url ++ "/" ++ path, params := query, body := tj data }

/-- `Client._execute_without_logging`: builds the request and sends it on the
session, the network modelled by the oracle `send`. -/
def execute_without_logging (send : Request → HttpResponse) (tj : Json → String)
    (base_url action path : String) (data : Json) (query : QDict) : HttpResponse :=
  send (build_request tj base_url action path data query)

/-- `Client._query_string_for_logging`: `""` for a falsy (absent or empty)
query, otherwise `?k1=v1&k2=v2...`. -/
def query_string_for_logging (query : QDict) : String :=
  match query with
  | none => ""
  | some [] => ""
  | some q => "?" ++ String.intercalate "&" (q.map (fun kv => kv.1 ++ "=" ++ kv.2.pyStr))

/-- The indentation applied by `Client._log` when `indented` is true: two
spaces before the text and after every newline. -/
def indentLog (s : String) : String :=
  "  " ++ String.intercalate ("\n" ++ "  ") (s.splitOn "\n")

/-- `"%s://%s:%s" % (self.scheme, self.domain, self.port)` (line 77). -/
def mk_base_url (scheme domain : String) (port : Nat) : String :=
  scheme ++ "://" ++ domain ++ ":" ++ toString port

/-- The state a constructed `Client` holds (the logger is reduced to whether
one is attached; the module-level debug logger is passed separately where it
matters). -/
structure Client where
  logger : Bool
  domain : String
  scheme : String
  port : Nat
  timeout : Nat
  auth : Option (String × String)
  base_url : String

/-- `Client.__init__`: defaults the port from the scheme when none is given,
parses the secret into session auth (propagating the `FaunaError` a bad
tuple raises), and precomputes the base URL. -/
def Client.init (logger : Bool) (domain scheme : String) (port : Option Nat)
    (timeout : Nat) (secret : Option Secret) : Except PyError Client :=
  let port' := match port with
    | none => if scheme = "https" then 443 else 80
    | some p => p
  match secret with
  | none =>
    Except.ok { logger := logger, domain := domain, scheme := scheme, port := port',
                timeout := timeout, auth := none,
                base_url := mk_base_url scheme domain port' }
  | some s =>
    (parse_secret s).map (fun a =>
      { logger := logger, domain := domain, scheme := scheme, port := port',
        timeout := timeout, auth := some a,
        base_url := mk_base_url scheme domain port' })

/-- `Client._execute`: normalizes path and query, then either the logging
branch (lines 161–189) or the plain branch (lines 190–193).  `send` is the
network, `parse` the external `_json.parse_json` codec, `tj` the external
`_json.to_json` codec, `debugLogger` whether the module-level `_debug_logger`
is set.  Returns the value `_handle_response` produces (or the error it
raises) together with the emitted log lines; wall-clock latency text is
omitted from the final log line (`time()` is an external effect). -/
def Client.execute (send : Request → HttpResponse) (parse : String → Json)
    (tj : Json → String) (debugLogger : Bool) (c : Client) (action : String)
    (path : PathArg) (data : Json) (query : QDict) :
    Except PyError Json × List String :=
  let p := pathString path
  let q := normalize_query query
  if c.logger || debugLogger then
    let line1 := "Fauna " ++ action ++ " /" ++ p ++ query_string_for_logging q
    let line2 := indentLog (match c.auth with
      | none => "Credentials: None"
      | some (u, pw) => "Credentials: " ++ u ++ ":" ++ pw)
    let dataLines := if data.truthy then [indentLog ("Request JSON: " ++ tj data)] else []
    let response := execute_without_logging send tj c.base_url action p data q
    let headers_json := tj (Json.obj (response.headers.map (fun kv => (kv.1, Json.str kv.2))))
    let response_dict := parse response.text
    let response_json := tj response_dict
    let line5 := indentLog ("Response headers: " ++ headers_json)
    let line6 := indentLog ("Response JSON: " ++ response_json)
    let line7 := indentLog ("Response (" ++ toString response.status_code ++
      "): API processing " ++ (lookupAssoc response.headers "X-HTTP-Request-Processing-Time").getD "N/A" ++ "ms")
    (handle_response response.status_code response_dict,
      [line1, line2] ++ dataLines ++ [line5, line6, line7])
  else
    let response := execute_without_logging send tj c.base_url action p data q
    let response_dict := parse response.text
    (handle_response response.status_code response_dict, [])

/-- The request `_execute` hands to the session for a given call: the
normalized path and query fed through `_execute_without_logging`'s request
construction.  Both branches of `Client.execute` send exactly this request
(`execute_transmits` below). -/
def transmitted_request (tj : Json → String) (c : Client) (action : String)
    (path : PathArg) (data : Json) (query : QDict) : Request :=
  build_request tj c.base_url action (pathString path) data (normalize_query query)

/-- `Client.get` (data is `None`). -/
def Client.get (send : Request → HttpResponse) (parse : String → Json)
    (tj : Json → String) (debugLogger : Bool) (c : Client) (path : PathArg)
    (query : QDict) : Except PyError Json × List String :=
  Client.execute send parse tj debugLogger c "GET" path Json.null query

/-- `Client.ping`: `self.get("ping", {"scope": scope, "timeout": timeout})`. -/
def Client.ping (send : Request → HttpResponse) (parse : String → Json)
    (tj : Json → String) (debugLogger : Bool) (c : Client)
    (scope timeout : Json) : Except PyError Json × List String :=
  Client.get send parse tj debugLogger c (PathArg.str "ping")
    (some [("scope", scope), ("timeout", timeout)])

/-- Both branches of `_execute` obtain their response by sending the
transmitted request, and the call's result is `_handle_response` of that
response's status and parsed body. -/
theorem execute_fst_eq (send : Request → HttpResponse) (parse : String → Json)
    (tj : Json → String) (debugLogger : Bool) (c : Client) (action : String)
    (path : PathArg) (data : Json) (query : QDict) :
    (Client.execute send parse tj debugLogger c action path data query).1
      = handle_response (send (transmitted_request tj c action path data query)).status_code
          (parse (send (transmitted_request tj c action path data query)).text) := by
  unfold Client.execute
  cases c.logger || debugLogger <;> rfl

/-- C1: for each status code in {400, 401, 403, 404, 405, 500, 503},
`_handle_response` raises the correspondingly-typed error (BadRequest,
Unauthorized, PermissionDenied, NotFound, MethodNotAllowed, InternalError,
UnavailableError), carrying the parsed response body. -/
theorem handle_response_error_taxonomy (body : Json) :
    handle_response 400 body = Except.error (PyError.badRequest body)
    ∧ handle_response 401 body = Except.error (PyError.unauthorized body)
    ∧ handle_response 403 body = Except.error (PyError.permissionDenied body)
    ∧ handle_response 404 body = Except.error (PyError.notFound body)
    ∧ handle_response 405 body = Except.error (PyError.methodNotAllowed body)
    ∧ handle_response 500 body = Except.error (PyError.internalError body)
    ∧ handle_response 503 body = Except.error (PyError.unavailableError body) :=
  ⟨rfl, rfl, rfl, rfl, rfl, rfl, rfl⟩

/-- C2: for every status code in [200, 299] and every parsed body that is a
mapping containing a `resource` field, `_handle_response` returns exactly
that field's value. -/
theorem handle_response_success_returns_resource (code : Nat)
    (fields : List (String × Json)) (v : Json)
    (h1 : 200 ≤ code) (h2 : code ≤ 299)
    (hv : lookupAssoc fields "resource" = some v) :
    handle_response code (Json.obj fields) = Except.ok v := by
  unfold handle_response
  rw [if_pos ⟨h1, h2⟩]
  simp [getItem, hv]

/-- Witness for C2 at status 250 and body containing a `resource` field. -/
theorem handle_response_success_returns_resource_witness :
    handle_response 250 (Json.obj [("resource", Json.str "x")])
      = Except.ok (Json.str "x") :=
  handle_response_success_returns_resource 250 [("resource", Json.str "x")]
    (Json.str "x") (by decide) (by decide) rfl

/-- C3 (divergence evidence): at status 200 with a body lacking a `resource`
field, `_handle_response` raises Python `KeyError("resource")` — a built-in
missing-field fault, not a member of the library's error taxonomy. -/
theorem handle_response_missing_resource_keyerror :
    handle_response 200 (Json.obj []) = Except.error (PyError.keyError "resource")
    ∧ isTaxonomyError (PyError.keyError "resource") = false :=
  ⟨rfl, rfl⟩

/-- C4 (counterexample): at statuses 418 and 502 the raised generic error is
`FaunaHTTPError` applied to the body alone, and the two errors are equal even
though the statuses differ — so the raised error does not carry the status
code, refuting the claim that it carries both status and body. -/
theorem generic_http_error_lacks_status :
    handle_response 418 (Json.obj []) = Except.error (PyError.faunaHTTPError (Json.obj []))
    ∧ handle_response 502 (Json.obj []) = Except.error (PyError.faunaHTTPError (Json.obj []))
    ∧ handle_response 418 (Json.obj []) = handle_response 502 (Json.obj []) :=
  ⟨rfl, rfl, rfl⟩

/-- C4 (amended): for every status code outside [200, 299] and outside
{400, 401, 403, 404, 405, 500, 503}, `_handle_response` raises the generic
`FaunaHTTPError` carrying the parsed response body (the status code is not
attached: the error constructor receives only the body). -/
theorem handle_response_generic_error (code : Nat) (body : Json)
    (h1 : ¬(200 ≤ code ∧ code ≤ 299)) (h2 : code ≠ 400) (h3 : code ≠ 401)
    (h4 : code ≠ 403) (h5 : code ≠ 404) (h6 : code ≠ 405) (h7 : code ≠ 500)
    (h8 : code ≠ 503) :
    handle_response code body = Except.error (PyError.faunaHTTPError body) := by
  simp [handle_response, codes.bad_request, codes.unauthorized, codes.forbidden,
    codes.not_found, codes.method_not_allowed, codes.internal_server_error,
    codes.unavailable, h1, h2, h3, h4, h5, h6, h7, h8]

/-- Witness for the amended C4 at status 418. -/
theorem handle_response_generic_error_witness :
    handle_response 418 (Json.arr []) = Except.error (PyError.faunaHTTPError (Json.arr [])) :=
  handle_response_generic_error 418 (Json.arr []) (by decide) (by decide) (by decide)
    (by decide) (by decide) (by decide) (by decide) (by decide)

/-- C5: `_parse_secret` maps a two-element tuple to that pair, splits a
string on the first colon only (empty password when there is no colon), and
raises the configuration `FaunaError` on every tuple whose length is not
two. -/
theorem parse_secret_spec :
    (∀ u p : String, parse_secret (Secret.tup [u, p]) = Except.ok (u, p))
    ∧ parse_secret (Secret.str "u:p") = Except.ok ("u", "p")
    ∧ parse_secret (Secret.str "u:p:extra") = Except.ok ("u", "p:extra")
    ∧ parse_secret (Secret.str "u") = Except.ok ("u", "")
    ∧ ∀ xs : List String, xs.length ≠ 2 →
        parse_secret (Secret.tup xs)
          = Except.error (PyError.faunaError "Secret tuple must have exactly two entries") := by
  refine ⟨fun u p => rfl, rfl, rfl, rfl, fun xs h => ?_⟩
  match xs with
  | [] => rfl
  | [_] => rfl
  | [_, _] => exact absurd rfl h
  | _ :: _ :: _ :: _ => rfl

/-- Witness for C5's tuple-length hypothesis at a length-3 tuple. -/
theorem parse_secret_spec_witness :
    parse_secret (Secret.tup ["a", "b", "c"])
      = Except.error (PyError.faunaError "Secret tuple must have exactly two entries") :=
  parse_secret_spec.2.2.2.2 ["a", "b", "c"] (by decide)

/-- C6: in the transmitted request, a `None` query mapping is passed through
untouched, and otherwise a key/value pair appears among the request's
parameters exactly when it was in the given query with a non-`None` value. -/
theorem query_params_filtered (tj : Json → String) (c : Client) (action : String)
    (path : PathArg) (data : Json) :
    (transmitted_request tj c action path data none).params = none
    ∧ ∀ (q : List (String × Json)) (kv : String × Json),
        kv ∈ ((transmitted_request tj c action path data (some q)).params.getD [])
          ↔ kv ∈ q ∧ kv.2.isNull = false := by
  refine ⟨rfl, fun q kv => ?_⟩
  simp [transmitted_request, build_request, normalize_query, List.mem_filter]

/-- C7: `_execute`'s result (value returned or error raised) is independent
of the logger configuration — whether a logger is attached and whether the
module-level debug logger is set — for the same underlying network, codecs
and request; the logging and non-logging branches differ only in the emitted
log lines. -/
theorem execute_logging_equivalent (send : Request → HttpResponse)
    (parse : String → Json) (tj : Json → String) (d1 d2 b1 b2 : Bool)
    (c : Client) (action : String) (path : PathArg) (data : Json) (query : QDict) :
    (Client.execute send parse tj d1 { c with logger := b1 } action path data query).1
      = (Client.execute send parse tj d2 { c with logger := b2 } action path data query).1 := by
  unfold Client.execute
  cases b1 <;> cases b2 <;> cases d1 <;> cases d2 <;> rfl

/-- C8: `ping(scope, timeout)` is a GET through `_execute` at path `"ping"`,
and its transmitted request has method GET, URL `base_url/ping`, and as
parameters exactly the non-`None` members of `{scope, timeout}`. -/
theorem ping_request_spec (send : Request → HttpResponse) (parse : String → Json)
    (tj : Json → String) (debugLogger : Bool) (c : Client) (scope timeout : Json) :
    Client.ping send parse tj debugLogger c scope timeout
      = Client.execute send parse tj debugLogger c "GET" (PathArg.str "ping") Json.null
          (some [("scope", scope), ("timeout", timeout)])
    ∧ (transmitted_request tj c "GET" (PathArg.str "ping") Json.null
        (some [("scope", scope), ("timeout", timeout)])).method = "GET"
    ∧ (transmitted_request tj c "GET" (PathArg.str "ping") Json.null
        (some [("scope", scope), ("timeout", timeout)])).url = c.base_url ++ "/ping"
    ∧ (transmitted_request tj c "GET" (PathArg.str "ping") Json.null
        (some [("scope", scope), ("timeout", timeout)])).params
        = some ((if scope.isNull then [] else [("scope", scope)])
            ++ (if timeout.isNull then [] else [("timeout", timeout)])) := by
  refine ⟨rfl, rfl, ?_, ?_⟩
  · show c.base_url ++ "/" ++ "ping" = c.base_url ++ "/ping"
    rw [String.append_assoc]
    exact congrArg (fun s => c.base_url ++ s) (by decide)
  · cases hs : scope.isNull <;> cases ht : timeout.isNull <;>
      simp [transmitted_request, build_request, normalize_query, hs, ht]

/-- C9: the transmitted request's URL is `scheme://domain:port` followed by a
single separating slash and the path, a `Ref` path being replaced by its
string value first. -/
theorem transmitted_url_construction (tj : Json → String) (c : Client)
    (scheme domain : String) (port : Nat)
    (hbase : c.base_url = mk_base_url scheme domain port)
    (action : String) (path : PathArg) (data : Json) (query : QDict) :
    (transmitted_request tj c action path data query).url
      = scheme ++ "://" ++ domain ++ ":" ++ toString port ++ "/" ++ pathString path
    ∧ ∀ r : Ref, pathString (PathArg.ref r) = r.value := by
  refine ⟨?_, fun r => rfl⟩
  simp [transmitted_request, build_request, hbase, mk_base_url, String.append_assoc]

/-- Witness for C9 with a `Ref` path on a concretely configured client. -/
theorem transmitted_url_construction_witness :
    (transmitted_request Json.pyStr
        { logger := false, domain := "db.example.com", scheme := "https", port := 443,
          timeout := 60, auth := none,
          base_url := mk_base_url "https" "db.example.com" 443 }
        "GET" (PathArg.ref ⟨"classes/frogs/123"⟩) Json.null none).url
      = "https" ++ "://" ++ "db.example.com" ++ ":" ++ toString 443 ++ "/"
          ++ pathString (PathArg.ref ⟨"classes/frogs/123"⟩) :=
  (transmitted_url_construction Json.pyStr _ "https" "db.example.com" 443 rfl
    "GET" (PathArg.ref ⟨"classes/frogs/123"⟩) Json.null none).1

/-- C10: with no explicit port the constructor picks 443 exactly when the
scheme is `"https"` and 80 for any other scheme string, while an explicitly
given port is stored unchanged. -/
theorem init_port_default (domain scheme : String) :
    ((Client.init false domain scheme none 60 none).toOption.map Client.port = some 443
        ↔ scheme = "https")
    ∧ (scheme ≠ "https" →
        (Client.init false domain scheme none 60 none).toOption.map Client.port = some 80)
    ∧ ∀ p : Nat,
        (Client.init false domain scheme (some p) 60 none).toOption.map Client.port
          = some p := by
  by_cases h : scheme = "https" <;>
    simp [Client.init, Except.toOption, h]

/-- Witness for C10 on the `"http"` scheme. -/
theorem init_port_default_witness :
    (Client.init false "rest.faunadb.com" "http" none 60 none).toOption.map Client.port
      = some 80 :=
  (init_port_default "rest.faunadb.com" "http").2.1 (by decide)
